import Mathlib

/-!
Verification development for the `city_gas_bill` Home Assistant integration.

The billing core lives in `custom_components/city_gas_bill/billing.py`
(class `GasBillCalculator`) and the reset / not-ready handling in
`custom_components/city_gas_bill/sensor.py`.  Python floats are modelled as
exact rationals (`ℚ`), Python ints as `ℤ`, and `datetime.date` as a record of
year/month/day integers together with the proleptic-Gregorian day-number
function `toordinal` that Python's date arithmetic is defined by.
-/

namespace CityGasBill

/-! ## Calendar model (embedding of `datetime.date` arithmetic) -/

/-- Gregorian leap-year test, as in `calendar.isleap`. -/
def isLeap (y : ℤ) : Prop := (y % 4 = 0 ∧ y % 100 ≠ 0) ∨ y % 400 = 0

instance (y : ℤ) : Decidable (isLeap y) :=
  inferInstanceAs (Decidable ((y % 4 = 0 ∧ y % 100 ≠ 0) ∨ y % 400 = 0))

/-- Number of days in a month, `calendar.monthrange(y, m)[1]`. -/
def daysInMonth (y m : ℤ) : ℤ :=
  if m = 2 then (if isLeap y then 29 else 28)
  else if m = 4 ∨ m = 6 ∨ m = 9 ∨ m = 11 then 30
  else 31

/-- Days in year `y` before the first of month `m` (CPython `_days_before_month`). -/
def daysBeforeMonth (y m : ℤ) : ℤ :=
  (if m ≤ 1 then 0 else if m = 2 then 31 else if m = 3 then 59 else if m = 4 then 90
   else if m = 5 then 120 else if m = 6 then 151 else if m = 7 then 181 else if m = 8 then 212
   else if m = 9 then 243 else if m = 10 then 273 else if m = 11 then 304 else 334)
  + (if 3 ≤ m ∧ isLeap y then 1 else 0)

/-- Days before January 1 of year `y` (CPython `_days_before_year`), extended to
all integer years by floor division. -/
def daysBeforeYear (y : ℤ) : ℤ :=
  365 * (y - 1) + (y - 1) / 4 - (y - 1) / 100 + (y - 1) / 400

/-- A calendar date, the shallow embedding of `datetime.date`. -/
structure Date where
  year : ℤ
  month : ℤ
  day : ℤ
deriving DecidableEq, Repr

/-- The date is a real calendar date (what `datetime.date` enforces). -/
def Date.Valid (d : Date) : Prop :=
  1 ≤ d.month ∧ d.month ≤ 12 ∧ 1 ≤ d.day ∧ d.day ≤ daysInMonth d.year d.month

instance (d : Date) : Decidable d.Valid :=
  inferInstanceAs (Decidable (1 ≤ d.month ∧ d.month ≤ 12 ∧ 1 ≤ d.day ∧
    d.day ≤ daysInMonth d.year d.month))

/-- `datetime.date.toordinal`: day number in the proleptic Gregorian calendar.
Python date comparison and `timedelta` subtraction are defined through it. -/
def toordinal (d : Date) : ℤ :=
  daysBeforeYear d.year + daysBeforeMonth d.year d.month + d.day

/-- The previous calendar day, i.e. `d - timedelta(days=1)` for valid `d`. -/
def pred (d : Date) : Date :=
  if 1 < d.day then ⟨d.year, d.month, d.day - 1⟩
  else if 1 < d.month then ⟨d.year, d.month - 1, daysInMonth d.year (d.month - 1)⟩
  else ⟨d.year - 1, 12, 31⟩

/-- Python `max` on two dates (returns the second only when it is strictly later). -/
def dateMax (a b : Date) : Date :=
  if toordinal a < toordinal b then b else a

/-- `d - relativedelta(months=1)`: step one month back, clamping the day to the
length of the target month. -/
def subMonth (d : Date) : Date :=
  let y := if d.month = 1 then d.year - 1 else d.year
  let m := if d.month = 1 then 12 else d.month - 1
  ⟨y, m, min d.day (daysInMonth y m)⟩

/-! ## `billing.py`: `GasBillCalculator` -/

/-- `GasBillCalculator.get_last_reading_date` (billing.py lines 16-29). -/
def get_last_reading_date (reading_day : ℤ) (today : Date) : Date :=
  if reading_day = 0 then
    let day := daysInMonth today.year today.month
    if today.day = day then today
    else
      let last_month := subMonth today
      ⟨last_month.year, last_month.month, daysInMonth last_month.year last_month.month⟩
  else if reading_day ≤ today.day then
    ⟨today.year, today.month, reading_day⟩
  else
    let last_month := subMonth today
    ⟨last_month.year, last_month.month, reading_day⟩

/-- Return value of `split_days_for_period`. -/
structure SplitResult where
  start_of_period : Date
  prev_month_days : ℤ
  curr_month_days : ℤ
  total_days : ℤ
deriving DecidableEq, Repr

/-- `GasBillCalculator.split_days_for_period` (billing.py lines 41-56). -/
def split_days_for_period (reading_day : ℤ) (today : Date) : SplitResult :=
  let start_of_period := get_last_reading_date reading_day today
  let pc : ℤ × ℤ :=
    if toordinal start_of_period ≤ toordinal today then
      let first_day_of_curr_month : Date := ⟨today.year, today.month, 1⟩
      let prev_month_days :=
        if toordinal start_of_period < toordinal first_day_of_curr_month then
          let last_day_of_prev_month := pred first_day_of_curr_month
          (toordinal last_day_of_prev_month - toordinal start_of_period) + 1
        else 0
      let curr_month_start := dateMax start_of_period first_day_of_curr_month
      let curr_month_days := (toordinal today - toordinal curr_month_start) + 1
      (prev_month_days, curr_month_days)
    else (0, 0)
  ⟨start_of_period, pc.1, pc.2, pc.1 + pc.2⟩

/-- `math.floor(x / 10) * 10`: truncation of a fee to the 10-won unit below. -/
def truncTo10 (x : ℚ) : ℤ := ⌊x / 10⌋ * 10

/-- Usage allocation by day ratio (billing.py lines 93-94). -/
def allocate_usage (corrected_usage : ℚ) (prev_days curr_days total_days : ℤ) : ℚ × ℚ :=
  (corrected_usage * ((prev_days : ℚ) / (total_days : ℚ)),
   corrected_usage * ((curr_days : ℚ) / (total_days : ℚ)))

/-- All quantities of the combined-mode cooking/heating tariff split. -/
structure CombinedSplitResult where
  effective_boundary : ℚ
  boundary_prev_mj : ℚ
  boundary_curr_mj : ℚ
  prev_cooking_mj : ℚ
  prev_heating_mj : ℚ
  curr_cooking_mj : ℚ
  curr_heating_mj : ℚ
  prev_cooking_fee : ℚ
  prev_heating_fee : ℚ
  curr_cooking_fee : ℚ
  curr_heating_fee : ℚ
deriving DecidableEq, Repr

/-- Combined-mode branch of `compute_total_bill_from_usage` (billing.py lines
114-134).  In the `effective_boundary <= 0` branch the source assigns only the
heating fees; the energy fields are recorded here as all-heating accordingly. -/
def combined_split (prev_usage_mj curr_usage_mj prev_price_cooking prev_price_heating
    curr_price_cooking curr_price_heating cooking_heating_boundary : ℚ)
    (prev_days curr_days total_days : ℤ) : CombinedSplitResult :=
  let effective_boundary :=
    if prev_price_cooking = prev_price_heating ∧ curr_price_cooking = curr_price_heating
    then 0 else cooking_heating_boundary
  if effective_boundary ≤ 0 then
    { effective_boundary := effective_boundary
      boundary_prev_mj := 0
      boundary_curr_mj := 0
      prev_cooking_mj := 0
      prev_heating_mj := prev_usage_mj
      curr_cooking_mj := 0
      curr_heating_mj := curr_usage_mj
      prev_cooking_fee := 0
      prev_heating_fee := prev_usage_mj * prev_price_heating
      curr_cooking_fee := 0
      curr_heating_fee := curr_usage_mj * curr_price_heating }
  else
    let boundary_prev_mj := effective_boundary * ((prev_days : ℚ) / (total_days : ℚ))
    let boundary_curr_mj := effective_boundary * ((curr_days : ℚ) / (total_days : ℚ))
    let prev_cooking_mj := min prev_usage_mj boundary_prev_mj
    let prev_heating_mj := max 0 (prev_usage_mj - prev_cooking_mj)
    let curr_cooking_mj := min curr_usage_mj boundary_curr_mj
    let curr_heating_mj := max 0 (curr_usage_mj - curr_cooking_mj)
    { effective_boundary := effective_boundary
      boundary_prev_mj := boundary_prev_mj
      boundary_curr_mj := boundary_curr_mj
      prev_cooking_mj := prev_cooking_mj
      prev_heating_mj := prev_heating_mj
      curr_cooking_mj := curr_cooking_mj
      curr_heating_mj := curr_heating_mj
      prev_cooking_fee := prev_cooking_mj * prev_price_cooking
      prev_heating_fee := prev_heating_mj * prev_price_heating
      curr_cooking_fee := curr_cooking_mj * curr_price_cooking
      curr_heating_fee := curr_heating_mj * curr_price_heating }

/-- Seasonal reduction for one period (billing.py lines 140-150): the winter
amount is chosen for months 12, 1, 2, 3, prorated by day count, and capped by
the period fee. -/
def applied_reduction (month : ℤ) (winter_reduction_fee non_winter_reduction_fee
    period_fee : ℚ) (period_days total_days : ℤ) : ℚ :=
  let amount :=
    if month = 12 ∨ month = 1 ∨ month = 2 ∨ month = 3
    then winter_reduction_fee else non_winter_reduction_fee
  min (amount * ((period_days : ℚ) / (total_days : ℚ))) period_fee

/-- Result of `compute_total_bill_from_usage`: the returned total fee and the
numeric attributes it reports. -/
structure BillResult where
  total_fee : ℤ
  start_date : Date
  days_total : ℤ
  days_prev_month : ℤ
  days_curr_month : ℤ
  prev_fee : ℚ
  curr_fee : ℚ
  prev_cooking_fee : ℚ
  prev_heating_fee : ℚ
  curr_cooking_fee : ℚ
  curr_heating_fee : ℚ
  prev_reduction_applied : ℚ
  curr_reduction_applied : ℚ
deriving DecidableEq, Repr

/-- The `total_days <= 0` early return of `compute_total_bill_from_usage`
(billing.py lines 88-90): base fee only, with VAT and 10-won truncation. -/
def base_fee_only_result (s : SplitResult) (base_fee : ℚ) : BillResult :=
  { total_fee := truncTo10 (base_fee * (11/10))
    start_date := s.start_of_period
    days_total := s.total_days
    days_prev_month := s.prev_month_days
    days_curr_month := s.curr_month_days
    prev_fee := 0
    curr_fee := 0
    prev_cooking_fee := 0
    prev_heating_fee := 0
    curr_cooking_fee := 0
    curr_heating_fee := 0
    prev_reduction_applied := 0
    curr_reduction_applied := 0 }

/-- Main branch of `compute_total_bill_from_usage` (billing.py lines 92-168),
taken when `total_days > 0`. -/
def main_bill_result (s : SplitResult) (corrected_usage base_fee prev_heat curr_heat
    prev_price_cooking prev_price_heating curr_price_cooking curr_price_heating
    cooking_heating_boundary winter_reduction_fee non_winter_reduction_fee : ℚ)
    (today : Date) (usage_type : String) : BillResult :=
  let usage := allocate_usage corrected_usage s.prev_month_days s.curr_month_days s.total_days
  let prev_usage_mj := usage.1 * prev_heat
  let curr_usage_mj := usage.2 * curr_heat
  let fees : ℚ × ℚ × ℚ × ℚ :=
    if usage_type = "cooking_only" then
      (prev_usage_mj * prev_price_cooking, 0, curr_usage_mj * curr_price_cooking, 0)
    else if usage_type = "heating_only" then
      (0, prev_usage_mj * prev_price_heating, 0, curr_usage_mj * curr_price_heating)
    else
      let c := combined_split prev_usage_mj curr_usage_mj prev_price_cooking
        prev_price_heating curr_price_cooking curr_price_heating cooking_heating_boundary
        s.prev_month_days s.curr_month_days s.total_days
      (c.prev_cooking_fee, c.prev_heating_fee, c.curr_cooking_fee, c.curr_heating_fee)
  let prev_fee := fees.1 + fees.2.1
  let curr_fee := fees.2.2.1 + fees.2.2.2
  let actual_prev_reduction := applied_reduction s.start_of_period.month
    winter_reduction_fee non_winter_reduction_fee prev_fee s.prev_month_days s.total_days
  let actual_curr_reduction := applied_reduction today.month
    winter_reduction_fee non_winter_reduction_fee curr_fee s.curr_month_days s.total_days
  let total_fee_before_vat :=
    base_fee + prev_fee - actual_prev_reduction + curr_fee - actual_curr_reduction
  let total_fee_with_vat := total_fee_before_vat * (11/10)
  { total_fee := truncTo10 total_fee_with_vat
    start_date := s.start_of_period
    days_total := s.total_days
    days_prev_month := s.prev_month_days
    days_curr_month := s.curr_month_days
    prev_fee := prev_fee
    curr_fee := curr_fee
    prev_cooking_fee := fees.1
    prev_heating_fee := fees.2.1
    curr_cooking_fee := fees.2.2.1
    curr_heating_fee := fees.2.2.2
    prev_reduction_applied := actual_prev_reduction
    curr_reduction_applied := actual_curr_reduction }

/-- `GasBillCalculator.compute_total_bill_from_usage` (billing.py lines 58-168). -/
def compute_total_bill_from_usage (reading_day : ℤ) (corrected_usage base_fee
    prev_heat curr_heat prev_price_cooking prev_price_heating curr_price_cooking
    curr_price_heating cooking_heating_boundary winter_reduction_fee
    non_winter_reduction_fee : ℚ) (today : Date) (usage_type : String) : BillResult :=
  let s := split_days_for_period reading_day today
  if s.total_days ≤ 0 then base_fee_only_result s base_fee
  else
    main_bill_result s corrected_usage base_fee prev_heat curr_heat prev_price_cooking
      prev_price_heating curr_price_cooking curr_price_heating cooking_heating_boundary
      winter_reduction_fee non_winter_reduction_fee today usage_type

/-- `GasBillCalculator.is_billing_month` (billing.py lines 171-193); the
`reading_cycle` argument is `str | None` in the source. -/
def is_billing_month (today : Date) (reading_cycle : Option String) : Bool :=
  match reading_cycle with
  | none => false
  | some rc =>
    if rc = "" ∨ rc = "disabled" then false
    else if rc = "odd" then today.month % 2 == 1
    else if rc = "even" then today.month % 2 == 0
    else if rc = "quarterly_1" then today.month % 3 == 1
    else if rc = "quarterly_2" then today.month % 3 == 2
    else if rc = "quarterly_3" then today.month % 3 == 0
    else false

/-- `GasBillCalculator.aggregate_periodic` (billing.py lines 195-209). -/
def aggregate_periodic (current_value prev_value : ℚ) (today : Date)
    (reading_cycle : Option String) (pre_prev_value : ℚ) : ℚ :=
  if is_billing_month today reading_cycle then
    if reading_cycle = some "quarterly_1" ∨ reading_cycle = some "quarterly_2" ∨
        reading_cycle = some "quarterly_3" then
      current_value + prev_value + pre_prev_value
    else
      current_value + prev_value
  else current_value

/-! ## `sensor.py`: reset carry-over and not-ready handling -/

/-- Python `int()` on a float: truncation toward zero. -/
def pyInt (x : ℚ) : ℤ := if x < 0 then -⌊-x⌋ else ⌊x⌋

/-- The new `period_start_reading` written at a period reset
(`TotalBillSensor._check_and_reset_on_reading_day`, sensor.py lines 480-486). -/
def reset_new_start_value (start_reading current_reading : ℚ) : ℚ :=
  let monthly_usage_raw := current_reading - start_reading
  let monthly_usage_raw := if monthly_usage_raw < 0 then 0 else monthly_usage_raw
  let monthly_usage_int := pyInt monthly_usage_raw
  start_reading + (monthly_usage_int : ℚ)

/-- The Number-entity settings needed for a bill calculation
(`BillConfigInputs`, sensor.py lines 65-77). -/
structure BillConfigInputs where
  base_fee : ℚ
  prev_heat : ℚ
  curr_heat : ℚ
  prev_price_cooking : ℚ
  prev_price_heating : ℚ
  curr_price_cooking : ℚ
  curr_price_heating : ℚ
  correction_factor : ℚ
  winter_reduction_fee : ℚ
  non_winter_reduction_fee : ℚ
  cooking_heating_boundary : ℚ
deriving DecidableEq, Repr

/-- `_get_bill_config_inputs` (sensor.py lines 91-107): each argument is the
result of `_get_state_as_float` (`none` when the entity is absent, unavailable
or non-numeric); the whole record is `None` as soon as one value is. -/
def get_bill_config_inputs (base_fee prev_heat curr_heat prev_price_cooking
    prev_price_heating curr_price_cooking curr_price_heating correction_factor
    winter_reduction_fee non_winter_reduction_fee cooking_heating_boundary :
    Option ℚ) : Option BillConfigInputs :=
  match base_fee, prev_heat, curr_heat, prev_price_cooking, prev_price_heating,
      curr_price_cooking, curr_price_heating, correction_factor,
      winter_reduction_fee, non_winter_reduction_fee, cooking_heating_boundary with
  | some a, some b, some c, some d, some e, some f, some g, some h, some i,
      some j, some k => some ⟨a, b, c, d, e, f, g, h, i, j, k⟩
  | _, _, _, _, _, _, _, _, _, _, _ => none

/-- `TotalBillSensor._calculate_bill` (sensor.py lines 490-521) as a state
update of the sensor's native value: when the config record or either reading
is missing the value is set to `None` (regardless of the previously displayed
value, which the assignment overwrites); otherwise the bill is computed. -/
def calculate_bill_native_value (previous_value : Option ℤ)
    (config_inputs : Option BillConfigInputs) (current_reading start_reading : Option ℚ)
    (reading_day : ℤ) (today : Date) (usage_type : String) : Option ℤ :=
  match config_inputs, current_reading, start_reading with
  | some c, some cur, some st =>
    let monthly_usage := cur - st
    let monthly_usage := if monthly_usage < 0 then 0 else monthly_usage
    let corrected_monthly_usage := monthly_usage * c.correction_factor
    some (compute_total_bill_from_usage reading_day corrected_monthly_usage
      c.base_fee c.prev_heat c.curr_heat c.prev_price_cooking c.prev_price_heating
      c.curr_price_cooking c.curr_price_heating c.cooking_heating_boundary
      c.winter_reduction_fee c.non_winter_reduction_fee today usage_type).total_fee
  | _, _, _ => none

/-! ## Calendar lemmas -/

theorem daysInMonth_ge_28 (y m : ℤ) : 28 ≤ daysInMonth y m := by
  unfold daysInMonth
  split_ifs <;> norm_num

theorem daysBeforeYear_succ (y : ℤ) :
    daysBeforeYear (y + 1) = daysBeforeYear y + (if isLeap y then 366 else 365) := by
  unfold daysBeforeYear isLeap
  split_ifs with h
  · omega
  · omega

theorem daysBeforeMonth_succ (y m : ℤ) (h1 : 1 ≤ m) (h2 : m ≤ 11) :
    daysBeforeMonth y (m + 1) = daysBeforeMonth y m + daysInMonth y m := by
  by_cases hL : isLeap y <;>
    interval_cases m <;>
      simp [daysBeforeMonth, daysInMonth, hL] <;> norm_num

theorem daysBeforeMonth_one (y : ℤ) : daysBeforeMonth y 1 = 0 := by
  norm_num [daysBeforeMonth]

theorem daysBeforeMonth_twelve_add (y : ℤ) :
    daysBeforeMonth y 12 + daysInMonth y 12 = if isLeap y then 366 else 365 := by
  by_cases hL : isLeap y <;> simp [daysBeforeMonth, daysInMonth, hL]

/-- Stepping back one day subtracts one from the ordinal and stays valid. -/
theorem pred_spec (d : Date) (hv : d.Valid) :
    (pred d).Valid ∧ toordinal (pred d) = toordinal d - 1 := by
  obtain ⟨hm1, hm12, hd1, hdm⟩ := hv
  unfold pred
  split_ifs with h1 h2
  · refine ⟨⟨by dsimp only; omega, by dsimp only; omega, by dsimp only; omega,
      by dsimp only; omega⟩, ?_⟩
    simp only [toordinal]
    omega
  · -- d.day = 1, d.month > 1
    have hday : d.day = 1 := by omega
    have h28 := daysInMonth_ge_28 d.year (d.month - 1)
    refine ⟨⟨by dsimp only; omega, by dsimp only; omega, by dsimp only; omega,
      by exact le_rfl⟩, ?_⟩
    have hrec := daysBeforeMonth_succ d.year (d.month - 1) (by omega) (by omega)
    simp only [toordinal]
    simp only [show d.month - 1 + 1 = d.month from by ring] at hrec
    omega
  · -- d.day = 1, d.month = 1
    have hday : d.day = 1 := by omega
    have hmon : d.month = 1 := by omega
    have h31 : daysInMonth (d.year - 1) 12 = 31 := by norm_num [daysInMonth]
    refine ⟨⟨by dsimp only; norm_num, by dsimp only; norm_num, by dsimp only; norm_num,
      by dsimp only; rw [h31]⟩, ?_⟩
    have hy := daysBeforeYear_succ (d.year - 1)
    simp only [show d.year - 1 + 1 = d.year from by ring] at hy
    have h12 := daysBeforeMonth_twelve_add (d.year - 1)
    have h1' := daysBeforeMonth_one d.year
    simp only [toordinal, hmon, hday]
    split_ifs at hy h12 <;> omega

/-- The "last day of the month before `d`" produced by `subMonth` is exactly
the predecessor of the first day of `d`'s month. -/
theorem subMonth_last_eq_pred_first (d : Date) (hv : d.Valid) :
    (⟨(subMonth d).year, (subMonth d).month,
      daysInMonth (subMonth d).year (subMonth d).month⟩ : Date)
      = pred ⟨d.year, d.month, 1⟩ := by
  obtain ⟨hm1, hm12, _, _⟩ := hv
  by_cases h : d.month = 1
  · simp only [subMonth, pred, h]
    norm_num [daysInMonth]
  · have hlt : 1 < d.month := by omega
    simp only [subMonth, pred, if_neg h]
    norm_num [hlt, h]

/-- For a valid `today` and a configured reading day in `{0, …, 28}`, the last
reading date is itself a valid calendar date and does not lie after `today`. -/
theorem get_last_reading_date_spec (rd : ℤ) (today : Date)
    (h0 : 0 ≤ rd) (h28 : rd ≤ 28) (hv : today.Valid) :
    (get_last_reading_date rd today).Valid ∧
      toordinal (get_last_reading_date rd today) ≤ toordinal today := by
  obtain ⟨hm1, hm12, hd1, hdm⟩ := hv
  have hfv : (⟨today.year, today.month, 1⟩ : Date).Valid := by
    refine ⟨hm1, hm12, le_rfl, ?_⟩
    show (1 : ℤ) ≤ daysInMonth today.year today.month
    have := daysInMonth_ge_28 today.year today.month
    omega
  have hpred := pred_spec ⟨today.year, today.month, 1⟩ hfv
  have heq := subMonth_last_eq_pred_first today ⟨hm1, hm12, hd1, hdm⟩
  have hford : toordinal (⟨today.year, today.month, 1⟩ : Date) ≤ toordinal today := by
    simp only [toordinal]
    omega
  unfold get_last_reading_date
  dsimp only
  split_ifs with hz he hd
  · exact ⟨⟨hm1, hm12, hd1, hdm⟩, le_rfl⟩
  · rw [heq]
    refine ⟨hpred.1, ?_⟩
    omega
  · have hrd1 : 1 ≤ rd := by omega
    have h28' := daysInMonth_ge_28 today.year today.month
    refine ⟨⟨hm1, hm12, hrd1,
      by show rd ≤ daysInMonth today.year today.month; omega⟩, ?_⟩
    simp only [toordinal]
    omega
  · -- rd ≥ 1 and today.day < rd: previous month, day rd
    have hrd1 : 1 ≤ rd := by omega
    have hpv := hpred.1
    have hpo := hpred.2
    -- the subMonth date with day rd shares year/month with `pred first`
    have hyear : (subMonth today).year = (pred ⟨today.year, today.month, 1⟩).year := by
      have := congrArg Date.year heq
      simpa using this
    have hmonth : (subMonth today).month = (pred ⟨today.year, today.month, 1⟩).month := by
      have := congrArg Date.month heq
      simpa using this
    have hday : daysInMonth (subMonth today).year (subMonth today).month
        = (pred ⟨today.year, today.month, 1⟩).day := by
      have := congrArg Date.day heq
      simpa using this
    obtain ⟨hq1, hq2, hq3, hq4⟩ := hpv
    refine ⟨⟨?_, ?_, hrd1, ?_⟩, ?_⟩
    · show 1 ≤ (subMonth today).month
      omega
    · show (subMonth today).month ≤ 12
      omega
    · show rd ≤ daysInMonth (subMonth today).year (subMonth today).month
      have := daysInMonth_ge_28 (subMonth today).year (subMonth today).month
      omega
    · have hords : toordinal ⟨(subMonth today).year, (subMonth today).month, rd⟩
          = toordinal (pred ⟨today.year, today.month, 1⟩)
            - (pred ⟨today.year, today.month, 1⟩).day + rd := by
        rw [← heq]
        simp only [toordinal]
        omega
      rw [hords]
      have h28p : 28 ≤ (pred ⟨today.year, today.month, 1⟩).day := by
        rw [← hday, hyear, hmonth]
        exact daysInMonth_ge_28 _ _
      omega

/-- Full characterisation of `split_days_for_period` on valid dates: the start
is `get_last_reading_date`, both day counts are non-negative, the current-month
count is at least 1, and the counts add up to the inclusive day span. -/
theorem split_days_spec (rd : ℤ) (today : Date)
    (h0 : 0 ≤ rd) (h28 : rd ≤ 28) (hv : today.Valid) :
    (split_days_for_period rd today).start_of_period = get_last_reading_date rd today ∧
    0 ≤ (split_days_for_period rd today).prev_month_days ∧
    1 ≤ (split_days_for_period rd today).curr_month_days ∧
    (split_days_for_period rd today).prev_month_days
        + (split_days_for_period rd today).curr_month_days
      = toordinal today
          - toordinal (split_days_for_period rd today).start_of_period + 1 ∧
    (split_days_for_period rd today).total_days
      = (split_days_for_period rd today).prev_month_days
          + (split_days_for_period rd today).curr_month_days := by
  obtain ⟨hgv, hgle⟩ := get_last_reading_date_spec rd today h0 h28 hv
  obtain ⟨hm1, hm12, hd1, hdm⟩ := hv
  have hfv : (⟨today.year, today.month, 1⟩ : Date).Valid := by
    refine ⟨hm1, hm12, le_rfl, ?_⟩
    show (1 : ℤ) ≤ daysInMonth today.year today.month
    have := daysInMonth_ge_28 today.year today.month
    omega
  have hpred := pred_spec ⟨today.year, today.month, 1⟩ hfv
  have hford : toordinal (⟨today.year, today.month, 1⟩ : Date) ≤ toordinal today := by
    simp only [toordinal]
    omega
  have hpo := hpred.2
  unfold split_days_for_period
  dsimp only
  rw [if_pos hgle]
  unfold dateMax
  by_cases hlt : toordinal (get_last_reading_date rd today)
      < toordinal (⟨today.year, today.month, 1⟩ : Date)
  · -- start before the first of the month; curr month starts at the first
    simp only [if_pos hlt]
    refine ⟨trivial, by omega, by omega, by omega, trivial⟩
  · -- start within the current month
    simp only [if_neg hlt]
    refine ⟨trivial, by omega, by omega, by omega, trivial⟩

/-- Truncating to the 10-won unit always yields a multiple of 10. -/
theorem truncTo10_dvd (x : ℚ) : (10 : ℤ) ∣ truncTo10 x :=
  dvd_mul_left 10 ⌊x / 10⌋

/-- Truncating to the 10-won unit never exceeds the untruncated amount. -/
theorem truncTo10_le (x : ℚ) : ((truncTo10 x : ℤ) : ℚ) ≤ x := by
  unfold truncTo10
  have h := Int.floor_le (x / 10)
  have h10 : (0 : ℚ) < 10 := by norm_num
  calc ((⌊x / 10⌋ * 10 : ℤ) : ℚ) = (⌊x / 10⌋ : ℚ) * 10 := by push_cast; ring
    _ ≤ (x / 10) * 10 := by linarith
    _ = x := by field_simp

/-! ## Claims -/

/-- C1.  Day-split totality: for every valid date `today` and every configured
reading day in `{0, 1, …, 28}`, `split_days_for_period` returns non-negative
previous- and current-month day counts whose sum equals the inclusive day span
`(today - period_start).days + 1`, which is also the returned `total_days`. -/
theorem claim_C1_day_split_totality (rd : ℤ) (today : Date)
    (h0 : 0 ≤ rd) (h28 : rd ≤ 28) (hv : today.Valid) :
    0 ≤ (split_days_for_period rd today).prev_month_days ∧
    0 ≤ (split_days_for_period rd today).curr_month_days ∧
    (split_days_for_period rd today).prev_month_days
        + (split_days_for_period rd today).curr_month_days
      = toordinal today
          - toordinal (split_days_for_period rd today).start_of_period + 1 ∧
    (split_days_for_period rd today).prev_month_days
        + (split_days_for_period rd today).curr_month_days
      = (split_days_for_period rd today).total_days := by
  obtain ⟨-, h1, h2, h3, h4⟩ := split_days_spec rd today h0 h28 hv
  exact ⟨h1, by omega, h3, by omega⟩

/-- Witness for C1 at `reading_day = 26`, `today = 2024-03-26`. -/
theorem claim_C1_witness :
    0 ≤ (26 : ℤ) ∧ (26 : ℤ) ≤ 28 ∧ (⟨2024, 3, 26⟩ : Date).Valid ∧
    (0 ≤ (split_days_for_period 26 ⟨2024, 3, 26⟩).prev_month_days ∧
     0 ≤ (split_days_for_period 26 ⟨2024, 3, 26⟩).curr_month_days ∧
     (split_days_for_period 26 ⟨2024, 3, 26⟩).prev_month_days
         + (split_days_for_period 26 ⟨2024, 3, 26⟩).curr_month_days
       = toordinal ⟨2024, 3, 26⟩
           - toordinal (split_days_for_period 26 ⟨2024, 3, 26⟩).start_of_period + 1 ∧
     (split_days_for_period 26 ⟨2024, 3, 26⟩).prev_month_days
         + (split_days_for_period 26 ⟨2024, 3, 26⟩).curr_month_days
       = (split_days_for_period 26 ⟨2024, 3, 26⟩).total_days) :=
  ⟨by decide, by decide, by decide,
    claim_C1_day_split_totality 26 ⟨2024, 3, 26⟩ (by decide) (by decide) (by decide)⟩

/-- C2 (counterexample).  With `reading_day = 26` and `today = 2024-03-26` the
code does NOT return `period_start = 2024-02-26`: since `today.day >= 26` the
period starts in `today`'s own month. -/
theorem claim_C2_counterexample :
    split_days_for_period 26 ⟨2024, 3, 26⟩ ≠ ⟨⟨2024, 2, 26⟩, 0, 1, 1⟩ := by
  decide

/-- C2 (amended).  Scenario A: with `reading_day = 26` and `today = 2024-03-26`
(today is exactly the reading day), `split_days_for_period` returns
`period_start = 2024-03-26`, `prev_days = 0`, `curr_days = 1`, `total_days = 1`. -/
theorem claim_C2_scenario_a :
    split_days_for_period 26 ⟨2024, 3, 26⟩ = ⟨⟨2024, 3, 26⟩, 0, 1, 1⟩ := by
  decide

/-- C4.  Usage conservation: over exact rational arithmetic, the day-prorated
usage shares add back up to the corrected usage whenever `total_days > 0` and
`prev_days + curr_days = total_days`. -/
theorem claim_C4_usage_conservation (corrected_usage : ℚ)
    (prev_days curr_days total_days : ℤ)
    (hpos : 0 < total_days) (hsum : prev_days + curr_days = total_days) :
    (allocate_usage corrected_usage prev_days curr_days total_days).1
      + (allocate_usage corrected_usage prev_days curr_days total_days).2
      = corrected_usage := by
  unfold allocate_usage
  have ht : ((total_days : ℚ)) ≠ 0 := by
    exact_mod_cast (show total_days ≠ 0 by omega)
  have hc : ((prev_days : ℚ)) + ((curr_days : ℚ)) = ((total_days : ℚ)) := by
    exact_mod_cast hsum
  field_simp
  linear_combination corrected_usage * hc

/-- Witness for C4 at `corrected_usage = 7`, day split `10 + 20 = 30`. -/
theorem claim_C4_witness :
    (0 : ℤ) < 30 ∧ (10 : ℤ) + 20 = 30 ∧
    (allocate_usage 7 10 20 30).1 + (allocate_usage 7 10 20 30).2 = 7 :=
  ⟨by norm_num, by norm_num,
    claim_C4_usage_conservation 7 10 20 30 (by norm_num) (by norm_num)⟩

/-- C7.  Periodic aggregation: `is_billing_month` is false for a missing or
disabled cycle and otherwise tests the month parity / quarter phase;
`aggregate_periodic` returns `current_value` unchanged outside billing months,
adds two stored values on quarterly cycles and one on odd/even cycles, and in
particular `aggregate(100, 50, today, "odd") = 150` for a month-3 date. -/
theorem claim_C7_periodic_aggregation :
    (∀ today : Date, is_billing_month today none = false) ∧
    (∀ today : Date, is_billing_month today (some "disabled") = false) ∧
    (∀ today : Date, is_billing_month today (some "odd") = decide (today.month % 2 = 1)) ∧
    (∀ today : Date, is_billing_month today (some "even") = decide (today.month % 2 = 0)) ∧
    (∀ today : Date,
      is_billing_month today (some "quarterly_1") = decide (today.month % 3 = 1)) ∧
    (∀ today : Date,
      is_billing_month today (some "quarterly_2") = decide (today.month % 3 = 2)) ∧
    (∀ today : Date,
      is_billing_month today (some "quarterly_3") = decide (today.month % 3 = 0)) ∧
    (∀ (cv pv ppv : ℚ) (today : Date) (rc : Option String),
      is_billing_month today rc = false → aggregate_periodic cv pv today rc ppv = cv) ∧
    (∀ (cv pv ppv : ℚ) (today : Date) (rc : Option String),
      is_billing_month today rc = true →
      (rc = some "quarterly_1" ∨ rc = some "quarterly_2" ∨ rc = some "quarterly_3") →
      aggregate_periodic cv pv today rc ppv = cv + pv + ppv) ∧
    (∀ (cv pv ppv : ℚ) (today : Date) (rc : Option String),
      is_billing_month today rc = true → (rc = some "odd" ∨ rc = some "even") →
      aggregate_periodic cv pv today rc ppv = cv + pv) ∧
    aggregate_periodic 100 50 ⟨2024, 3, 15⟩ (some "odd") 0 = 150 := by
  refine ⟨fun _ => rfl, fun _ => rfl, fun _ => rfl, fun _ => rfl, fun _ => rfl,
    fun _ => rfl, fun _ => rfl, ?_, ?_, ?_, ?_⟩
  · intro cv pv ppv today rc h
    unfold aggregate_periodic
    rw [h]
    simp
  · intro cv pv ppv today rc h hq
    unfold aggregate_periodic
    rw [h]
    rw [if_pos rfl, if_pos hq]
  · intro cv pv ppv today rc h ho
    unfold aggregate_periodic
    rw [h]
    rw [if_pos rfl, if_neg ?_]
    rcases ho with ho | ho <;> subst ho <;> simp
  · unfold aggregate_periodic
    rw [if_pos (show is_billing_month ⟨2024, 3, 15⟩ (some "odd") = true from by decide)]
    rw [if_neg (show ¬((some "odd" : Option String) = some "quarterly_1" ∨
      (some "odd" : Option String) = some "quarterly_2" ∨
      (some "odd" : Option String) = some "quarterly_3") from by decide)]
    norm_num

/-- Witness for C7: an even-cycle billing month adds exactly one stored value. -/
theorem claim_C7_witness :
    is_billing_month ⟨2024, 4, 2⟩ (some "even") = true ∧
    aggregate_periodic 7 5 ⟨2024, 4, 2⟩ (some "even") 3 = 7 + 5 :=
  ⟨by decide,
    claim_C7_periodic_aggregation.2.2.2.2.2.2.2.2.2.1 7 5 3 ⟨2024, 4, 2⟩
      (some "even") (by decide) (Or.inr rfl)⟩

/-- C8.  Reset carry-over: the new `period_start_reading` equals the old one
plus `int(max(0, current_reading - old))`, so exactly the integer part of the
billed usage is absorbed and the fractional remainder
`current_reading - new_start` stays in `[0, 1)` for the next period. -/
theorem claim_C8_reset_carry_over (start_reading current_reading : ℚ) :
    reset_new_start_value start_reading current_reading
      = start_reading + ((pyInt (max 0 (current_reading - start_reading)) : ℤ) : ℚ) ∧
    (start_reading ≤ current_reading →
      reset_new_start_value start_reading current_reading - start_reading
          = ((⌊current_reading - start_reading⌋ : ℤ) : ℚ) ∧
      0 ≤ current_reading - reset_new_start_value start_reading current_reading ∧
      current_reading - reset_new_start_value start_reading current_reading < 1) := by
  constructor
  · simp only [reset_new_start_value]
    by_cases h : current_reading - start_reading < 0
    · rw [if_pos h, max_eq_left h.le]
    · rw [if_neg h, max_eq_right (not_lt.1 h)]
  · intro h
    have hr : ¬ current_reading - start_reading < 0 := by linarith
    have hfl := Int.floor_le (current_reading - start_reading)
    have hfu := Int.lt_floor_add_one (current_reading - start_reading)
    simp only [reset_new_start_value, pyInt]
    simp only [if_neg hr]
    refine ⟨by ring, by push_cast; linarith, by push_cast; linarith⟩

/-- Witness for C8 at `start = 10`, `current = 12.5`: remainder `0.5` carried. -/
theorem claim_C8_witness :
    (10 : ℚ) ≤ 25/2 ∧
    (reset_new_start_value 10 (25/2) - 10 = ((⌊(25/2 : ℚ) - 10⌋ : ℤ) : ℚ) ∧
     0 ≤ (25/2 : ℚ) - reset_new_start_value 10 (25/2) ∧
     (25/2 : ℚ) - reset_new_start_value 10 (25/2) < 1) :=
  ⟨by norm_num, (claim_C8_reset_carry_over 10 (25/2)).2 (by norm_num)⟩

/-- C3.  Combined-mode tariff split: equal cooking/heating prices for both
periods force an effective boundary of 0 with everything priced as heating; a
positive effective boundary is prorated by day count, cooking energy is
`min(period_energy, period_boundary)` and heating energy the non-negative
remainder; and the boundary-516 scenario yields 172/344 boundaries,
172/128 previous and 344/456 current cooking/heating energies. -/
theorem claim_C3_combined_tariff_split :
    (∀ (pu cu ppc pph cpc cph b : ℚ) (pd cd td : ℤ), ppc = pph → cpc = cph →
      (combined_split pu cu ppc pph cpc cph b pd cd td).effective_boundary = 0 ∧
      (combined_split pu cu ppc pph cpc cph b pd cd td).prev_cooking_fee = 0 ∧
      (combined_split pu cu ppc pph cpc cph b pd cd td).prev_heating_fee = pu * pph ∧
      (combined_split pu cu ppc pph cpc cph b pd cd td).curr_cooking_fee = 0 ∧
      (combined_split pu cu ppc pph cpc cph b pd cd td).curr_heating_fee = cu * cph) ∧
    (∀ (pu cu ppc pph cpc cph b : ℚ) (pd cd td : ℤ),
      0 < (combined_split pu cu ppc pph cpc cph b pd cd td).effective_boundary →
      combined_split pu cu ppc pph cpc cph b pd cd td =
        { effective_boundary := b
          boundary_prev_mj := b * ((pd : ℚ) / (td : ℚ))
          boundary_curr_mj := b * ((cd : ℚ) / (td : ℚ))
          prev_cooking_mj := min pu (b * ((pd : ℚ) / (td : ℚ)))
          prev_heating_mj := max 0 (pu - min pu (b * ((pd : ℚ) / (td : ℚ))))
          curr_cooking_mj := min cu (b * ((cd : ℚ) / (td : ℚ)))
          curr_heating_mj := max 0 (cu - min cu (b * ((cd : ℚ) / (td : ℚ))))
          prev_cooking_fee := min pu (b * ((pd : ℚ) / (td : ℚ))) * ppc
          prev_heating_fee := max 0 (pu - min pu (b * ((pd : ℚ) / (td : ℚ)))) * pph
          curr_cooking_fee := min cu (b * ((cd : ℚ) / (td : ℚ))) * cpc
          curr_heating_fee := max 0 (cu - min cu (b * ((cd : ℚ) / (td : ℚ)))) * cph }) ∧
    ((combined_split 300 800 1 2 1 2 516 10 20 30).boundary_prev_mj = 172 ∧
     (combined_split 300 800 1 2 1 2 516 10 20 30).boundary_curr_mj = 344 ∧
     (combined_split 300 800 1 2 1 2 516 10 20 30).prev_cooking_mj = 172 ∧
     (combined_split 300 800 1 2 1 2 516 10 20 30).prev_heating_mj = 128 ∧
     (combined_split 300 800 1 2 1 2 516 10 20 30).curr_cooking_mj = 344 ∧
     (combined_split 300 800 1 2 1 2 516 10 20 30).curr_heating_mj = 456) := by
  refine ⟨?_, ?_, ?_⟩
  · intro pu cu ppc pph cpc cph b pd cd td h1 h2
    have hp : ppc = pph ∧ cpc = cph := ⟨h1, h2⟩
    simp only [combined_split, if_pos hp, if_pos (le_refl (0 : ℚ))]
    simp
  · intro pu cu ppc pph cpc cph b pd cd td heff
    by_cases hp : ppc = pph ∧ cpc = cph
    · exfalso
      rw [show (combined_split pu cu ppc pph cpc cph b pd cd td).effective_boundary = 0
          from by simp only [combined_split, if_pos hp, if_pos (le_refl (0 : ℚ))]] at heff
      exact lt_irrefl 0 heff
    · by_cases hb : b ≤ 0
      · exfalso
        rw [show (combined_split pu cu ppc pph cpc cph b pd cd td).effective_boundary = b
            from by simp only [combined_split, if_neg hp, if_pos hb]] at heff
        linarith
      · simp only [combined_split, if_neg hp, if_neg hb]
  · have hres : combined_split 300 800 1 2 1 2 516 10 20 30 =
        { effective_boundary := 516
          boundary_prev_mj := 516 * (((10 : ℤ) : ℚ) / ((30 : ℤ) : ℚ))
          boundary_curr_mj := 516 * (((20 : ℤ) : ℚ) / ((30 : ℤ) : ℚ))
          prev_cooking_mj := min 300 (516 * (((10 : ℤ) : ℚ) / ((30 : ℤ) : ℚ)))
          prev_heating_mj :=
            max 0 (300 - min 300 (516 * (((10 : ℤ) : ℚ) / ((30 : ℤ) : ℚ))))
          curr_cooking_mj := min 800 (516 * (((20 : ℤ) : ℚ) / ((30 : ℤ) : ℚ)))
          curr_heating_mj :=
            max 0 (800 - min 800 (516 * (((20 : ℤ) : ℚ) / ((30 : ℤ) : ℚ))))
          prev_cooking_fee := min 300 (516 * (((10 : ℤ) : ℚ) / ((30 : ℤ) : ℚ))) * 1
          prev_heating_fee :=
            max 0 (300 - min 300 (516 * (((10 : ℤ) : ℚ) / ((30 : ℤ) : ℚ)))) * 2
          curr_cooking_fee := min 800 (516 * (((20 : ℤ) : ℚ) / ((30 : ℤ) : ℚ))) * 1
          curr_heating_fee :=
            max 0 (800 - min 800 (516 * (((20 : ℤ) : ℚ) / ((30 : ℤ) : ℚ)))) * 2 } := by
      simp only [combined_split, if_neg (show ¬((1 : ℚ) = 2 ∧ (1 : ℚ) = 2) from by
        norm_num), if_neg (show ¬(516 : ℚ) ≤ 0 from by norm_num)]
    rw [hres]
    have h172 : (516 : ℚ) * (((10 : ℤ) : ℚ) / ((30 : ℤ) : ℚ)) = 172 := by norm_num
    have h344 : (516 : ℚ) * (((20 : ℤ) : ℚ) / ((30 : ℤ) : ℚ)) = 344 := by norm_num
    refine ⟨h172, h344, ?_, ?_, ?_, ?_⟩
    · show min 300 (516 * (((10 : ℤ) : ℚ) / ((30 : ℤ) : ℚ))) = 172
      rw [h172]
      norm_num [min_def]
    · show max 0 (300 - min 300 (516 * (((10 : ℤ) : ℚ) / ((30 : ℤ) : ℚ)))) = 128
      rw [h172]
      norm_num [min_def, max_def]
    · show min 800 (516 * (((20 : ℤ) : ℚ) / ((30 : ℤ) : ℚ))) = 344
      rw [h344]
      norm_num [min_def]
    · show max 0 (800 - min 800 (516 * (((20 : ℤ) : ℚ) / ((30 : ℤ) : ℚ)))) = 456
      rw [h344]
      norm_num [min_def, max_def]

/-- Witness for C3: equal prices in both periods disable the boundary split. -/
theorem claim_C3_witness :
    (2 : ℚ) = 2 ∧ (3 : ℚ) = 3 ∧
    ((combined_split 10 20 2 2 3 3 516 1 2 3).effective_boundary = 0 ∧
     (combined_split 10 20 2 2 3 3 516 1 2 3).prev_cooking_fee = 0 ∧
     (combined_split 10 20 2 2 3 3 516 1 2 3).prev_heating_fee = 10 * 2 ∧
     (combined_split 10 20 2 2 3 3 516 1 2 3).curr_cooking_fee = 0 ∧
     (combined_split 10 20 2 2 3 3 516 1 2 3).curr_heating_fee = 20 * 3) :=
  ⟨rfl, rfl, claim_C3_combined_tariff_split.1 10 20 2 2 3 3 516 1 2 3 rfl rfl⟩

/-- C5.  Seasonal reduction: the applied reduction is the day-prorated winter
amount for keying months 12, 1, 2, 3 and the non-winter amount otherwise,
capped at the period fee; it lies in `[0, period_fee]` for non-negative
inputs; and `compute_total_bill_from_usage` applies it to the previous period
keyed by `period_start.month` and to the current period keyed by `today.month`. -/
theorem claim_C5_seasonal_reduction :
    (∀ (month : ℤ) (w nw fee : ℚ) (pd td : ℤ),
      applied_reduction month w nw fee pd td
        = min ((if month = 12 ∨ month = 1 ∨ month = 2 ∨ month = 3 then w else nw)
            * ((pd : ℚ) / (td : ℚ))) fee) ∧
    (∀ (month : ℤ) (w nw fee : ℚ) (pd td : ℤ), 0 ≤ w → 0 ≤ nw → 0 ≤ fee →
      0 ≤ pd → 0 ≤ td →
      0 ≤ applied_reduction month w nw fee pd td ∧
      applied_reduction month w nw fee pd td ≤ fee) ∧
    (∀ (rd : ℤ) (cu bf ph ch ppc pph cpc cph chb w nw : ℚ) (today : Date)
        (ut : String),
      ¬ (split_days_for_period rd today).total_days ≤ 0 →
      (compute_total_bill_from_usage rd cu bf ph ch ppc pph cpc cph chb w nw
          today ut).prev_reduction_applied
        = applied_reduction (split_days_for_period rd today).start_of_period.month
            w nw
            (compute_total_bill_from_usage rd cu bf ph ch ppc pph cpc cph chb w nw
              today ut).prev_fee
            (split_days_for_period rd today).prev_month_days
            (split_days_for_period rd today).total_days ∧
      (compute_total_bill_from_usage rd cu bf ph ch ppc pph cpc cph chb w nw
          today ut).curr_reduction_applied
        = applied_reduction today.month w nw
            (compute_total_bill_from_usage rd cu bf ph ch ppc pph cpc cph chb w nw
              today ut).curr_fee
            (split_days_for_period rd today).curr_month_days
            (split_days_for_period rd today).total_days) := by
  refine ⟨fun _ _ _ _ _ _ => rfl, ?_, ?_⟩
  · intro month w nw fee pd td hw hnw hfee hpd htd
    unfold applied_reduction
    constructor
    · refine le_min (mul_nonneg ?_ ?_) hfee
      · split_ifs <;> assumption
      · exact div_nonneg (by exact_mod_cast hpd) (by exact_mod_cast htd)
    · exact min_le_right _ _
  · intro rd cu bf ph ch ppc pph cpc cph chb w nw today ut h
    simp only [compute_total_bill_from_usage, if_neg h, main_bill_result]
    simp

/-- Witness for C5 at a non-winter month with `w = 100`, `nw = 50`,
`fee = 30`, `pd = 10`, `td = 30`. -/
theorem claim_C5_witness :
    (0 : ℚ) ≤ 100 ∧ (0 : ℚ) ≤ 50 ∧ (0 : ℚ) ≤ 30 ∧ (0 : ℤ) ≤ 10 ∧ (0 : ℤ) ≤ 30 ∧
    (0 ≤ applied_reduction 5 100 50 30 10 30 ∧
     applied_reduction 5 100 50 30 10 30 ≤ 30) :=
  ⟨by norm_num, by norm_num, by norm_num, by norm_num, by norm_num,
    claim_C5_seasonal_reduction.2.1 5 100 50 30 10 30 (by norm_num) (by norm_num)
      (by norm_num) (by norm_num) (by norm_num)⟩

/-- C6.  Bill finalization: the returned total fee is always
`floor((base_fee + prev_net_fee + curr_net_fee) * 1.1 / 10) * 10`, is a
multiple of 10, and does not exceed the with-VAT amount; in the degenerate
`total_days <= 0` branch it is `floor(base_fee * 1.1 / 10) * 10`, which for
`base_fee = 1250` is `1370`. -/
theorem claim_C6_bill_finalization :
    (∀ (rd : ℤ) (cu bf ph ch ppc pph cpc cph chb w nw : ℚ) (today : Date)
        (ut : String),
      (compute_total_bill_from_usage rd cu bf ph ch ppc pph cpc cph chb w nw
          today ut).total_fee
        = truncTo10 ((bf
            + ((compute_total_bill_from_usage rd cu bf ph ch ppc pph cpc cph chb w nw
                  today ut).prev_fee
              - (compute_total_bill_from_usage rd cu bf ph ch ppc pph cpc cph chb w nw
                  today ut).prev_reduction_applied)
            + ((compute_total_bill_from_usage rd cu bf ph ch ppc pph cpc cph chb w nw
                  today ut).curr_fee
              - (compute_total_bill_from_usage rd cu bf ph ch ppc pph cpc cph chb w nw
                  today ut).curr_reduction_applied)) * (11/10)) ∧
      (10 : ℤ) ∣ (compute_total_bill_from_usage rd cu bf ph ch ppc pph cpc cph chb w
          nw today ut).total_fee ∧
      (((compute_total_bill_from_usage rd cu bf ph ch ppc pph cpc cph chb w nw
          today ut).total_fee : ℤ) : ℚ)
        ≤ (bf
            + ((compute_total_bill_from_usage rd cu bf ph ch ppc pph cpc cph chb w nw
                  today ut).prev_fee
              - (compute_total_bill_from_usage rd cu bf ph ch ppc pph cpc cph chb w nw
                  today ut).prev_reduction_applied)
            + ((compute_total_bill_from_usage rd cu bf ph ch ppc pph cpc cph chb w nw
                  today ut).curr_fee
              - (compute_total_bill_from_usage rd cu bf ph ch ppc pph cpc cph chb w nw
                  today ut).curr_reduction_applied)) * (11/10)) ∧
    (∀ (rd : ℤ) (cu bf ph ch ppc pph cpc cph chb w nw : ℚ) (today : Date)
        (ut : String),
      (split_days_for_period rd today).total_days ≤ 0 →
      (compute_total_bill_from_usage rd cu bf ph ch ppc pph cpc cph chb w nw
          today ut).total_fee = truncTo10 (bf * (11/10))) ∧
    truncTo10 (1250 * (11/10)) = 1370 := by
  have key : ∀ (rd : ℤ) (cu bf ph ch ppc pph cpc cph chb w nw : ℚ) (today : Date)
      (ut : String),
      (compute_total_bill_from_usage rd cu bf ph ch ppc pph cpc cph chb w nw
          today ut).total_fee
        = truncTo10 ((bf
            + ((compute_total_bill_from_usage rd cu bf ph ch ppc pph cpc cph chb w nw
                  today ut).prev_fee
              - (compute_total_bill_from_usage rd cu bf ph ch ppc pph cpc cph chb w nw
                  today ut).prev_reduction_applied)
            + ((compute_total_bill_from_usage rd cu bf ph ch ppc pph cpc cph chb w nw
                  today ut).curr_fee
              - (compute_total_bill_from_usage rd cu bf ph ch ppc pph cpc cph chb w nw
                  today ut).curr_reduction_applied)) * (11/10)) := by
    intro rd cu bf ph ch ppc pph cpc cph chb w nw today ut
    by_cases h : (split_days_for_period rd today).total_days ≤ 0
    · simp only [compute_total_bill_from_usage, if_pos h, base_fee_only_result]
      congr 1
      ring
    · simp only [compute_total_bill_from_usage, if_neg h, main_bill_result]
      congr 1
      ring
  refine ⟨fun rd cu bf ph ch ppc pph cpc cph chb w nw today ut =>
    ⟨key rd cu bf ph ch ppc pph cpc cph chb w nw today ut, ?_, ?_⟩, ?_, ?_⟩
  · rw [key rd cu bf ph ch ppc pph cpc cph chb w nw today ut]
    exact truncTo10_dvd _
  · rw [key rd cu bf ph ch ppc pph cpc cph chb w nw today ut]
    exact truncTo10_le _
  · intro rd cu bf ph ch ppc pph cpc cph chb w nw today ut h
    simp only [compute_total_bill_from_usage, if_pos h, base_fee_only_result]
  · norm_num [truncTo10]

/-- Witness for C6: an (invalid-date) input that actually reaches the
`total_days <= 0` guard, where the base-fee-only amount 1250 yields 1370. -/
theorem claim_C6_witness :
    (split_days_for_period 5 ⟨2024, 3, -40⟩).total_days ≤ 0 ∧
    (compute_total_bill_from_usage 5 0 1250 0 0 0 0 0 0 0 0 0 ⟨2024, 3, -40⟩
        "combined").total_fee = truncTo10 (1250 * (11/10)) :=
  ⟨by decide,
    claim_C6_bill_finalization.2.1 5 0 1250 0 0 0 0 0 0 0 0 0 ⟨2024, 3, -40⟩
      "combined" (by decide)⟩

/-- C9 (counterexample).  When a required input is missing the previous
displayed value is NOT left in place: `_calculate_bill` overwrites the
sensor's native value with `None`. -/
theorem claim_C9_counterexample :
    calculate_bill_native_value (some 100) none (some 5) (some 2) 26
      ⟨2024, 3, 26⟩ "combined" ≠ some 100 := by
  simp [calculate_bill_native_value]

/-- C9 (amended).  Not-ready on missing input: the embedded calculation path is
a total function (it cannot raise); the config record is present exactly when
all eleven numeric settings are, and the computed native value is present
exactly when the config record and both readings are — when anything is
missing the sensor value becomes `None` (overwriting, not retaining, the
previously displayed value). -/
theorem claim_C9_not_ready :
    (∀ (a b c d e f g h i j k : Option ℚ),
      (get_bill_config_inputs a b c d e f g h i j k).isSome
        = (a.isSome && b.isSome && c.isSome && d.isSome && e.isSome && f.isSome
            && g.isSome && h.isSome && i.isSome && j.isSome && k.isSome)) ∧
    (∀ (prev : Option ℤ) (cfg : Option BillConfigInputs) (cur st : Option ℚ)
        (rd : ℤ) (today : Date) (ut : String),
      (calculate_bill_native_value prev cfg cur st rd today ut).isSome
        = (cfg.isSome && cur.isSome && st.isSome)) := by
  constructor
  · intro a b c d e f g h i j k
    cases a <;> cases b <;> cases c <;> cases d <;> cases e <;> cases f <;>
      cases g <;> cases h <;> cases i <;> cases j <;> cases k <;>
        simp [get_bill_config_inputs]
  · intro prev cfg cur st rd today ut
    cases cfg <;> cases cur <;> cases st <;> simp [calculate_bill_native_value]

/-- C10.  Degenerate branch unreachable, calendar validity: for valid dates and
reading days in `{0, …, 28}`, `get_last_reading_date` is a valid date not after
`today`, the split has `curr_days >= 1` and `total_days >= 1`, and
`compute_total_bill_from_usage` always takes the main branch (never the
base-fee-only `total_days <= 0` branch). -/
theorem claim_C10_degenerate_branch_unreachable (rd : ℤ) (today : Date)
    (h0 : 0 ≤ rd) (h28 : rd ≤ 28) (hv : today.Valid) :
    (get_last_reading_date rd today).Valid ∧
    toordinal (get_last_reading_date rd today) ≤ toordinal today ∧
    1 ≤ (split_days_for_period rd today).curr_month_days ∧
    1 ≤ (split_days_for_period rd today).total_days ∧
    (∀ (cu bf ph ch ppc pph cpc cph chb w nw : ℚ) (ut : String),
      compute_total_bill_from_usage rd cu bf ph ch ppc pph cpc cph chb w nw
          today ut
        = main_bill_result (split_days_for_period rd today) cu bf ph ch ppc pph
            cpc cph chb w nw today ut) := by
  obtain ⟨hgv, hgle⟩ := get_last_reading_date_spec rd today h0 h28 hv
  obtain ⟨-, h1, h2, -, h4⟩ := split_days_spec rd today h0 h28 hv
  refine ⟨hgv, hgle, h2, by omega, ?_⟩
  intro cu bf ph ch ppc pph cpc cph chb w nw ut
  unfold compute_total_bill_from_usage
  rw [if_neg (by omega)]

/-- Witness for C10 at `reading_day = 26`, `today = 2024-03-26` and concrete
tariff inputs. -/
theorem claim_C10_witness :
    0 ≤ (26 : ℤ) ∧ (26 : ℤ) ≤ 28 ∧ (⟨2024, 3, 26⟩ : Date).Valid ∧
    (get_last_reading_date 26 ⟨2024, 3, 26⟩).Valid ∧
    1 ≤ (split_days_for_period 26 ⟨2024, 3, 26⟩).total_days ∧
    compute_total_bill_from_usage 26 8 1250 43 43 20 20 20 20 516 6000 420
        ⟨2024, 3, 26⟩ "combined"
      = main_bill_result (split_days_for_period 26 ⟨2024, 3, 26⟩) 8 1250 43 43 20
          20 20 20 516 6000 420 ⟨2024, 3, 26⟩ "combined" := by
  have h := claim_C10_degenerate_branch_unreachable 26 ⟨2024, 3, 26⟩
    (by decide) (by decide) (by decide)
  exact ⟨by decide, by decide, by decide, h.1, h.2.2.2.1,
    h.2.2.2.2 8 1250 43 43 20 20 20 20 516 6000 420 "combined"⟩

end CityGasBill
